import Mathlib

/-!
Shallow embedding of the cart/order consistency workflow of the
daily-fragments meal-ordering web app.

The cart is a JSON object stored under the local-storage key `"cart"`,
mapping meal id to quantity (`Record<string, number>` in the source).  We
model a JSON object as an association list with JS object semantics
(unique keys; read = first binding, write = overwrite-or-append,
delete = drop the key), and the local-storage slot as an `Option` of such
a list (`none` = key absent).

Prices are modelled with `ℚ` (the spec mandates decimal-safe arithmetic
for price sums); quantities and nutritional numbers with `Int`.

The order submission workflow `handlePlaceOrder` (Checkout.tsx) is
embedded as a function from its inputs — delivery address, materialized
cart items, the authenticated user (if any), the storage collaborator's
answers to the two inserts, and the cart store — to an outcome record
listing the rows durably inserted in each table, the cart store
afterwards, the settled result, and the toast titles shown.
-/

namespace DailyFragments

/-- A catalog row of the `meals` table as selected in Checkout.tsx (`Meal`). -/
structure Meal where
  id : String
  name : String
  price : ℚ
  calories : Int
  protein : Int
  carbs : Int
  fats : Int
deriving DecidableEq, Repr

/-- A materialized cart line: Checkout.tsx `CartItem extends Meal` with a quantity. -/
structure CartItem extends Meal where
  quantity : Int
deriving DecidableEq, Repr

/-- The parsed JSON cart object: association list of meal id to quantity. -/
abbrev Cart := List (String × Int)

/-- Read `cart[k]`: the first binding of key `k`, if present. -/
def lookupKey : Cart → String → Option Int
  | [], _ => none
  | p :: rest, k => if p.1 == k then some p.2 else lookupKey rest k

/-- Write `cart[k] = v`: overwrite the first binding of `k`, or append a new one. -/
def setKey : Cart → String → Int → Cart
  | [], k, v => [(k, v)]
  | p :: rest, k, v => if p.1 == k then (k, v) :: rest else p :: setKey rest k v

/-- Delete `cart[k]`: drop every binding of key `k`. -/
def eraseKey : Cart → String → Cart
  | [], _ => []
  | p :: rest, k => if p.1 == k then eraseKey rest k else p :: eraseKey rest k

/-- The local-storage slot for key `"cart"`: `none` models an absent key
(`localStorage.getItem("cart") === null`). -/
abbrev CartStore := Option Cart

/-- The cart mapping a reader sees: an absent slot reads as the empty cart
(Checkout.tsx `loadCartItems` treats a missing `"cart"` key as `[]`). -/
def storedCart (s : CartStore) : Cart := s.getD []

/-- Quantity stored for a key, through the store. -/
def lookupStore (s : CartStore) (k : String) : Option Int :=
  lookupKey (storedCart s) k

/-- Checkout.tsx `removeFromCart`: if the store slot is absent, return with no
change; otherwise delete the key and write the object back.  (The toast and
the reload it triggers do not touch the stored mapping.) -/
def removeFromCart (s : CartStore) (mealId : String) : CartStore :=
  match s with
  | none => none
  | some c => some (eraseKey c mealId)

/-- Checkout.tsx `updateQuantity`: a new quantity below 1 delegates to
`removeFromCart`; otherwise, if the store slot is present, overwrite the key
and write the object back. -/
def updateQuantity (s : CartStore) (mealId : String) (newQuantity : Int) : CartStore :=
  if newQuantity < 1 then removeFromCart s mealId
  else
    match s with
    | none => none
    | some c => some (setKey c mealId newQuantity)

/-- Meals.tsx `addToCart`: increment the quantity under `mealId` on the
in-memory cart object (a missing key counts as 0), which is then persisted
wholesale. -/
def addToCart (c : Cart) (mealId : String) : Cart :=
  setKey c mealId ((lookupKey c mealId).getD 0 + 1)

/-- Checkout.tsx `loadCartItems`, successful-fetch path: with an absent store
slot or no cart keys the materialization is empty; otherwise the backend
returns the catalog rows whose id is among the cart keys
(`.in("id", mealIds)`), and each is joined with its cart quantity. -/
def loadCartItems (s : CartStore) (catalog : List Meal) : List CartItem :=
  match s with
  | none => []
  | some cart =>
    if cart.isEmpty then []
    else
      (catalog.filter (fun m => (lookupKey cart m.id).isSome)).map
        (fun m => { toMeal := m, quantity := (lookupKey cart m.id).getD 0 })

/-- Checkout.tsx `totalPrice`: left fold of unit price × quantity over the
materialized items. -/
def totalPrice (items : List CartItem) : ℚ :=
  items.foldl (fun sum item => sum + item.price * (item.quantity : ℚ)) 0

/-- Aggregate nutritional totals. -/
structure Macros where
  calories : Int
  protein : Int
  carbs : Int
  fats : Int
deriving DecidableEq, Repr

/-- Checkout.tsx `totalMacros`: left fold accumulating the four nutritional
sums over the materialized items. -/
def totalMacros (items : List CartItem) : Macros :=
  items.foldl
    (fun acc item =>
      { calories := acc.calories + item.calories * item.quantity
        protein := acc.protein + item.protein * item.quantity
        carbs := acc.carbs + item.carbs * item.quantity
        fats := acc.fats + item.fats * item.quantity })
    { calories := 0, protein := 0, carbs := 0, fats := 0 }

/-- The JS guard `!deliveryAddress.trim()`: the string is empty after trimming
whitespace exactly when every character is whitespace. -/
def isBlank (s : String) : Bool :=
  s.toList.all Char.isWhitespace

/-- A row inserted into the `orders` table. -/
structure OrderRow where
  user_id : String
  total_price : ℚ
  delivery_address : String
  status : String
  payment_status : String
deriving DecidableEq, Repr

/-- A row inserted into the `order_items` table. -/
structure OrderItemRow where
  order_id : String
  meal_id : String
  quantity : Int
  price_at_purchase : ℚ
deriving DecidableEq, Repr

/-- How the storage collaborator answers the two inserts of the workflow:
the `orders` insert either is rejected with an error message or returns the
created order row's id; the batched `order_items` insert either is rejected
with a message or succeeds. -/
structure Storage where
  insertOrder : Except String String
  insertOrderItems : Except String Unit

/-- The settled result of one `handlePlaceOrder` run. -/
inductive OrderResult where
  | missingAddress
  | emptyCart
  | authRedirect
  | orderInsertFailed (msg : String)
  | itemsInsertFailed (msg : String)
  | success
deriving DecidableEq, Repr

/-- Everything observable after one `handlePlaceOrder` run: the settled
result, the rows now durably present in `orders` and `order_items` from this
run, the cart store afterwards, and the toast titles shown, in order. -/
structure WorkflowOutcome where
  result : OrderResult
  ordersInserted : List OrderRow
  orderItemsInserted : List OrderItemRow
  cartStore : CartStore
  toasts : List String
deriving DecidableEq, Repr

/-- Checkout.tsx `handlePlaceOrder`, in source order: the address check (an
address blank after `trim` toasts "delivery address required" and returns),
the empty-cart check (toasts "cart is empty" and returns), the auth gate
(no user: redirect, no writes), the single `orders` insert (on rejection:
toast "error placing order", no rows, cart untouched), the batched
`order_items` insert built from the materialized items' captured prices
(on rejection: toast "error saving order items", the order row persists
with no lines, cart untouched), and on success the removal of the `"cart"`
local-storage key and the "order placed!" toast. -/
def handlePlaceOrder (deliveryAddress : String) (cartItems : List CartItem)
    (user : Option String) (storage : Storage) (store : CartStore) : WorkflowOutcome :=
  if isBlank deliveryAddress then
    ⟨.missingAddress, [], [], store, ["delivery address required"]⟩
  else if cartItems.isEmpty then
    ⟨.emptyCart, [], [], store, ["cart is empty"]⟩
  else
    match user with
    | none => ⟨.authRedirect, [], [], store, []⟩
    | some uid =>
      match storage.insertOrder with
      | .error msg =>
          ⟨.orderInsertFailed msg, [], [], store, ["error placing order"]⟩
      | .ok orderId =>
          let orderRow : OrderRow :=
            ⟨uid, totalPrice cartItems, deliveryAddress, "pending", "pending"⟩
          let orderLines := cartItems.map (fun item =>
            OrderItemRow.mk orderId item.id item.quantity item.price)
          match storage.insertOrderItems with
          | .error msg =>
              ⟨.itemsInsertFailed msg, [orderRow], [], store, ["error saving order items"]⟩
          | .ok _ =>
              ⟨.success, [orderRow], orderLines, none, ["order placed!"]⟩

/-- A concrete catalog row used by the concrete end-to-end scenarios:
item `A`, price 18.90, calories 450, protein 45, carbs 40, fats 12. -/
def mealA : Meal :=
  { id := "A", name := "grilled chicken bowl", price := 189/10
    calories := 450, protein := 45, carbs := 40, fats := 12 }

/-- A second concrete catalog row, used for permutation scenarios. -/
def mealB : Meal :=
  { id := "B", name := "tofu quinoa bowl", price := 125/10
    calories := 380, protein := 22, carbs := 35, fats := 14 }

/-! Helper lemmas about the cart operations. -/

theorem lookupKey_setKey_self (c : Cart) (k : String) (v : Int) :
    lookupKey (setKey c k v) k = some v := by
  induction c with
  | nil => simp [setKey, lookupKey]
  | cons p rest ih =>
    by_cases h : p.1 = k
    · simp [setKey, lookupKey, h]
    · simp [setKey, lookupKey, h, ih]

theorem lookupKey_setKey_other (c : Cart) (k k' : String) (v : Int) (h : k' ≠ k) :
    lookupKey (setKey c k v) k' = lookupKey c k' := by
  have h' : ¬ k = k' := fun e => h e.symm
  induction c with
  | nil => simp [setKey, lookupKey, h']
  | cons p rest ih =>
    by_cases hp : p.1 = k
    · simp [setKey, lookupKey, hp, h']
    · by_cases hp' : p.1 = k'
      · simp [setKey, lookupKey, hp, hp', h]
      · simp [setKey, lookupKey, hp, hp', ih]

theorem lookupKey_eraseKey_self (c : Cart) (k : String) :
    lookupKey (eraseKey c k) k = none := by
  induction c with
  | nil => simp [eraseKey, lookupKey]
  | cons p rest ih =>
    by_cases h : p.1 = k
    · simp [eraseKey, h, ih]
    · simp [eraseKey, lookupKey, h, ih]

theorem lookupKey_eraseKey_other (c : Cart) (k k' : String) (h : k' ≠ k) :
    lookupKey (eraseKey c k) k' = lookupKey c k' := by
  induction c with
  | nil => simp [eraseKey]
  | cons p rest ih =>
    have h' : ¬ k = k' := fun e => h e.symm
    by_cases hp : p.1 = k
    · simp [eraseKey, lookupKey, hp, h', ih]
    · simp [eraseKey, lookupKey, hp, ih]

theorem loadCartItems_some (cart : Cart) (catalog : List Meal) :
    loadCartItems (some cart) catalog =
      (catalog.filter (fun m => (lookupKey cart m.id).isSome)).map
        (fun m => { toMeal := m, quantity := (lookupKey cart m.id).getD 0 }) := by
  cases cart with
  | nil =>
    have : ∀ m ∈ catalog, (lookupKey ([] : Cart) m.id).isSome = false := by
      intro m _; simp [lookupKey]
    simp [loadCartItems, List.filter_congr this]
  | cons p rest => simp [loadCartItems]

theorem mem_loadCartItems_toMeal (s : CartStore) (catalog : List Meal) :
    ∀ it ∈ loadCartItems s catalog, it.toMeal ∈ catalog := by
  cases s with
  | none => simp [loadCartItems]
  | some cart =>
    rw [loadCartItems_some]
    intro it hit
    rcases List.mem_map.mp hit with ⟨m, hm, rfl⟩
    exact (List.mem_filter.mp hm).1

theorem foldl_add_price (f : CartItem → ℚ) (l : List CartItem) (a : ℚ) :
    l.foldl (fun s it => s + f it) a = a + (l.map f).sum := by
  induction l generalizing a with
  | nil => simp
  | cons x xs ih => simp [ih, add_assoc]

theorem totalPrice_eq_sum (items : List CartItem) :
    totalPrice items = (items.map fun it => it.price * (it.quantity : ℚ)).sum := by
  simpa [totalPrice] using foldl_add_price (fun it => it.price * (it.quantity : ℚ)) items 0

theorem totalMacros_foldl (l : List CartItem) (acc : Macros) :
    l.foldl
      (fun acc item =>
        { calories := acc.calories + item.calories * item.quantity
          protein := acc.protein + item.protein * item.quantity
          carbs := acc.carbs + item.carbs * item.quantity
          fats := acc.fats + item.fats * item.quantity })
      acc =
      { calories := acc.calories + (l.map fun it => it.calories * it.quantity).sum
        protein := acc.protein + (l.map fun it => it.protein * it.quantity).sum
        carbs := acc.carbs + (l.map fun it => it.carbs * it.quantity).sum
        fats := acc.fats + (l.map fun it => it.fats * it.quantity).sum } := by
  induction l generalizing acc with
  | nil => simp
  | cons x xs ih => simp [ih, add_assoc]

theorem totalMacros_eq_sums (items : List CartItem) :
    totalMacros items =
      { calories := (items.map fun it => it.calories * it.quantity).sum
        protein := (items.map fun it => it.protein * it.quantity).sum
        carbs := (items.map fun it => it.carbs * it.quantity).sum
        fats := (items.map fun it => it.fats * it.quantity).sum } := by
  simpa [totalMacros] using totalMacros_foldl items ⟨0, 0, 0, 0⟩

/-- Either a run of the workflow inserted no order lines at all, or the
storage collaborator returned an order id and the lines are exactly the
materialized items, carried over verbatim. -/
theorem orderItemsInserted_cases (addr : String) (items : List CartItem)
    (user : Option String) (st : Storage) (s : CartStore) :
    (handlePlaceOrder addr items user st s).orderItemsInserted = [] ∨
    ∃ oid, st.insertOrder = Except.ok oid ∧
      (handlePlaceOrder addr items user st s).orderItemsInserted =
        items.map (fun item => OrderItemRow.mk oid item.id item.quantity item.price) := by
  unfold handlePlaceOrder
  by_cases hb : isBlank addr
  · simp [hb]
  · by_cases he : items.isEmpty
    · simp [hb, he]
    · cases user with
      | none => simp [hb, he]
      | some uid =>
        cases ho : st.insertOrder with
        | error msg => simp [hb, he, ho]
        | ok oid =>
          cases hl : st.insertOrderItems with
          | error msg => simp [hb, he, ho, hl]
          | ok u => exact Or.inr ⟨oid, rfl, by simp [hb, he, ho, hl]⟩

/-! Claim theorems. -/

/-- C1: with Cart Store `{A: 2}`, catalog item A priced 18.90 (calories 450,
protein 45, carbs 40, fats 12), a matched materialization, a non-blank
delivery address, an authenticated user, and both storage writes succeeding,
the submission creates exactly one Order with totalPrice 37.80 (status
pending, paymentStatus pending), exactly one OrderLine with quantity 2 and
price_at_purchase 18.90 referencing that Order, and leaves the Cart Store
empty. -/
theorem end_to_end_success :
    loadCartItems (some [("A", 2)]) [mealA] = [⟨mealA, 2⟩] ∧
    handlePlaceOrder "12 jalan bukit, kuala lumpur"
        (loadCartItems (some [("A", 2)]) [mealA]) (some "user-1")
        ⟨Except.ok "order-1", Except.ok ()⟩ (some [("A", 2)]) =
      ⟨.success,
        [⟨"user-1", 378/10, "12 jalan bukit, kuala lumpur", "pending", "pending"⟩],
        [⟨"order-1", "A", 2, 189/10⟩], none, ["order placed!"]⟩ ∧
    storedCart (handlePlaceOrder "12 jalan bukit, kuala lumpur"
        (loadCartItems (some [("A", 2)]) [mealA]) (some "user-1")
        ⟨Except.ok "order-1", Except.ok ()⟩ (some [("A", 2)])).cartStore = [] := by
  have hload : loadCartItems (some [("A", 2)]) [mealA] = [⟨mealA, 2⟩] := by
    simp [loadCartItems, lookupKey, mealA]
  have hb : isBlank "12 jalan bukit, kuala lumpur" = false := by decide
  have hrun : handlePlaceOrder "12 jalan bukit, kuala lumpur"
      (loadCartItems (some [("A", 2)]) [mealA]) (some "user-1")
      ⟨Except.ok "order-1", Except.ok ()⟩ (some [("A", 2)]) =
      ⟨.success,
        [⟨"user-1", 378/10, "12 jalan bukit, kuala lumpur", "pending", "pending"⟩],
        [⟨"order-1", "A", 2, 189/10⟩], none, ["order placed!"]⟩ := by
    rw [hload]
    norm_num [handlePlaceOrder, hb, totalPrice, mealA]
  exact ⟨hload, hrun, by rw [hrun]; rfl⟩

/-- C2 counterexample: with a blank address AND an empty cart, the run shows
only the "delivery address required" toast; the "cart is empty" failure is
not reported — the address check returns first, refuting the claim that both
failures are reported individually. -/
theorem both_failures_not_both_reported :
    (handlePlaceOrder "" [] (some "user-1") ⟨Except.ok "order-1", Except.ok ()⟩
        (some [])).toasts = ["delivery address required"] ∧
    "cart is empty" ∉
      (handlePlaceOrder "" [] (some "user-1") ⟨Except.ok "order-1", Except.ok ()⟩
        (some [])).toasts := by
  have h : handlePlaceOrder "" [] (some "user-1")
      ⟨Except.ok "order-1", Except.ok ()⟩ (some []) =
      ⟨.missingAddress, [], [], some [], ["delivery address required"]⟩ := by
    simp [handlePlaceOrder, isBlank]
  rw [h]
  exact ⟨rfl, by simp⟩

/-- C2 (amended): when both preconditions fail, the workflow short-circuits
after the address check and reports only RejectedInput{missing_address};
RejectedInput{empty_cart} is reported exactly when the address is non-blank
and no line items are present.  Either way no write is performed and the
cart store is unchanged. -/
theorem validation_short_circuits (addr : String) (user : Option String)
    (st : Storage) (s : CartStore) :
    (isBlank addr = true →
      handlePlaceOrder addr [] user st s =
        ⟨.missingAddress, [], [], s, ["delivery address required"]⟩) ∧
    (isBlank addr = false →
      handlePlaceOrder addr [] user st s =
        ⟨.emptyCart, [], [], s, ["cart is empty"]⟩) := by
  constructor
  · intro h; simp [handlePlaceOrder, h]
  · intro h; simp [handlePlaceOrder, h]

/-- Witness for the amended C2 at concrete inputs: a blank address with an
empty cart settles as missing_address only. -/
theorem validation_short_circuits_witness :
    handlePlaceOrder "" [] (some "user-1") ⟨Except.ok "order-1", Except.ok ()⟩
        (some [("A", 2)]) =
      ⟨.missingAddress, [], [], some [("A", 2)], ["delivery address required"]⟩ :=
  (validation_short_circuits "" (some "user-1") ⟨Except.ok "order-1", Except.ok ()⟩
    (some [("A", 2)])).1 (by decide)

/-- C3: for every cart-items list, user, storage behavior and cart store, a
delivery address blank after trimming settles as RejectedInput
{missing_address} with zero rows written to either table and the cart store
unchanged. -/
theorem missing_address_rejected_no_writes (addr : String) (items : List CartItem)
    (user : Option String) (st : Storage) (s : CartStore) (h : isBlank addr = true) :
    handlePlaceOrder addr items user st s =
      ⟨.missingAddress, [], [], s, ["delivery address required"]⟩ := by
  simp [handlePlaceOrder, h]

/-- Witness for C3 at a concrete input: whitespace-only address, non-empty
cart, working storage. -/
theorem missing_address_rejected_no_writes_witness :
    handlePlaceOrder "   " [⟨mealA, 1⟩] (some "user-1")
        ⟨Except.ok "order-1", Except.ok ()⟩ (some [("A", 1)]) =
      ⟨OrderResult.missingAddress, [], [], some [("A", 1)],
        ["delivery address required"]⟩ :=
  missing_address_rejected_no_writes "   " [⟨mealA, 1⟩] (some "user-1")
    ⟨Except.ok "order-1", Except.ok ()⟩ (some [("A", 1)]) (by decide)

/-- C4: with a non-blank address, a non-empty cart and an authenticated
user, a rejected `orders` insert settles as a failure carrying the storage
error verbatim, with zero rows in both tables (so no OrderLine insert is
attempted) and the cart store completely untouched. -/
theorem order_insert_rejected_cart_preserved (addr : String)
    (items : List CartItem) (uid msg : String) (st : Storage) (s : CartStore)
    (ha : isBlank addr = false) (hi : items ≠ [])
    (ho : st.insertOrder = Except.error msg) :
    handlePlaceOrder addr items (some uid) st s =
      ⟨.orderInsertFailed msg, [], [], s, ["error placing order"]⟩ := by
  have he : items.isEmpty = false := by
    cases items with
    | nil => exact absurd rfl hi
    | cons a l => rfl
  simp [handlePlaceOrder, ha, he, ho]

/-- Witness for C4 at a concrete input: storage rejects the order insert. -/
theorem order_insert_rejected_cart_preserved_witness :
    handlePlaceOrder "12 jalan bukit" [⟨mealA, 2⟩] (some "user-1")
        ⟨Except.error "row violates row-level security", Except.ok ()⟩
        (some [("A", 2)]) =
      ⟨OrderResult.orderInsertFailed "row violates row-level security", [], [],
        some [("A", 2)], ["error placing order"]⟩ :=
  order_insert_rejected_cart_preserved "12 jalan bukit" [⟨mealA, 2⟩] "user-1"
    "row violates row-level security"
    ⟨Except.error "row violates row-level security", Except.ok ()⟩
    (some [("A", 2)]) (by decide) (by simp) rfl

/-- C5: when the `orders` insert succeeds and the batched `order_items`
insert is rejected, the run settles as a failure carrying the storage error,
the created Order row persists with zero OrderLine rows (no compensating
delete or rollback appears in the outcome), and the cart store is left
unchanged (not cleared). -/
theorem lines_rejected_orphan_order_cart_preserved (addr : String)
    (items : List CartItem) (uid oid msg : String) (st : Storage) (s : CartStore)
    (ha : isBlank addr = false) (hi : items ≠ [])
    (ho : st.insertOrder = Except.ok oid)
    (hl : st.insertOrderItems = Except.error msg) :
    handlePlaceOrder addr items (some uid) st s =
      ⟨.itemsInsertFailed msg,
        [⟨uid, totalPrice items, addr, "pending", "pending"⟩], [], s,
        ["error saving order items"]⟩ := by
  have he : items.isEmpty = false := by
    cases items with
    | nil => exact absurd rfl hi
    | cons a l => rfl
  simp [handlePlaceOrder, ha, he, ho, hl]

/-- Witness for C5 at a concrete input: order insert succeeds, line insert
fails. -/
theorem lines_rejected_orphan_order_cart_preserved_witness :
    handlePlaceOrder "12 jalan bukit" [⟨mealA, 2⟩] (some "user-1")
        ⟨Except.ok "order-1", Except.error "network timeout"⟩ (some [("A", 2)]) =
      ⟨OrderResult.itemsInsertFailed "network timeout",
        [⟨"user-1", totalPrice [⟨mealA, 2⟩], "12 jalan bukit", "pending", "pending"⟩],
        [], some [("A", 2)], ["error saving order items"]⟩ :=
  lines_rejected_orphan_order_cart_preserved "12 jalan bukit" [⟨mealA, 2⟩]
    "user-1" "order-1" "network timeout"
    ⟨Except.ok "order-1", Except.error "network timeout"⟩ (some [("A", 2)])
    (by decide) (by simp) rfl rfl

/-- C6: every OrderLine row written by a submission over items materialized
from a cart store and a catalog carries the quantity and the unit price of
its materialized item — the price captured when the cart was joined against
the catalog — and that price is the catalog price at materialization time;
the workflow takes no catalog argument, so no re-read happens at write
time. -/
theorem lines_priced_at_materialization (store₀ s : CartStore)
    (catalog : List Meal) (addr uid : String) (st : Storage) :
    ∀ row ∈ (handlePlaceOrder addr (loadCartItems store₀ catalog) (some uid)
        st s).orderItemsInserted,
      (∃ it ∈ loadCartItems store₀ catalog,
          row.meal_id = it.id ∧ row.quantity = it.quantity ∧
          row.price_at_purchase = it.price) ∧
      ∃ m ∈ catalog, row.meal_id = m.id ∧ row.price_at_purchase = m.price := by
  intro row hrow
  rcases orderItemsInserted_cases addr (loadCartItems store₀ catalog) (some uid)
      st s with hnil | ⟨oid, _, hmap⟩
  · rw [hnil] at hrow
    cases hrow
  · rw [hmap] at hrow
    rcases List.mem_map.mp hrow with ⟨it, hit, rfl⟩
    exact ⟨⟨it, hit, rfl, rfl, rfl⟩,
      ⟨it.toMeal, mem_loadCartItems_toMeal _ _ it hit, rfl, rfl⟩⟩

/-- Witness for C6 at a concrete input: the single written line carries the
materialization-time price 18.90 of catalog item A. -/
theorem lines_priced_at_materialization_witness :
    (∃ it ∈ loadCartItems (some [("A", 2)]) [mealA],
        (⟨"order-1", "A", 2, 189/10⟩ : OrderItemRow).meal_id = it.id ∧
        (⟨"order-1", "A", 2, 189/10⟩ : OrderItemRow).quantity = it.quantity ∧
        (⟨"order-1", "A", 2, 189/10⟩ : OrderItemRow).price_at_purchase = it.price) ∧
    ∃ m ∈ [mealA],
        (⟨"order-1", "A", 2, 189/10⟩ : OrderItemRow).meal_id = m.id ∧
        (⟨"order-1", "A", 2, 189/10⟩ : OrderItemRow).price_at_purchase = m.price := by
  have hb : isBlank "12 jalan bukit" = false := by decide
  have hmem : (⟨"order-1", "A", 2, 189/10⟩ : OrderItemRow) ∈
      (handlePlaceOrder "12 jalan bukit" (loadCartItems (some [("A", 2)]) [mealA])
        (some "user-1") ⟨Except.ok "order-1", Except.ok ()⟩
        (some [("A", 2)])).orderItemsInserted := by
    simp [loadCartItems, lookupKey, mealA, handlePlaceOrder, hb]
  exact lines_priced_at_materialization (some [("A", 2)]) (some [("A", 2)])
    [mealA] "12 jalan bukit" "user-1" ⟨Except.ok "order-1", Except.ok ()⟩
    (⟨"order-1", "A", 2, 189/10⟩ : OrderItemRow) hmem

/-- C7: the materialized price total equals the sum of unit price ×
quantity over the line items, the four nutritional totals equal the
corresponding per-item sums, and every permutation of the line-item list
produces identical totals. -/
theorem totals_are_sums_and_permutation_invariant
    (items items' : List CartItem) (h : items.Perm items') :
    totalPrice items = (items.map fun it => it.price * (it.quantity : ℚ)).sum ∧
    totalMacros items =
      { calories := (items.map fun it => it.calories * it.quantity).sum
        protein := (items.map fun it => it.protein * it.quantity).sum
        carbs := (items.map fun it => it.carbs * it.quantity).sum
        fats := (items.map fun it => it.fats * it.quantity).sum } ∧
    totalPrice items = totalPrice items' ∧
    totalMacros items = totalMacros items' := by
  refine ⟨totalPrice_eq_sum items, totalMacros_eq_sums items, ?_, ?_⟩
  · rw [totalPrice_eq_sum items, totalPrice_eq_sum items']
    exact (h.map _).sum_eq
  · rw [totalMacros_eq_sums items, totalMacros_eq_sums items',
      (h.map fun it => it.calories * it.quantity).sum_eq,
      (h.map fun it => it.protein * it.quantity).sum_eq,
      (h.map fun it => it.carbs * it.quantity).sum_eq,
      (h.map fun it => it.fats * it.quantity).sum_eq]

/-- Witness for C7 at a concrete input: swapping a two-item list leaves the
price total unchanged. -/
theorem totals_are_sums_and_permutation_invariant_witness :
    totalPrice [⟨mealA, 1⟩, ⟨mealB, 2⟩] = totalPrice [⟨mealB, 2⟩, ⟨mealA, 1⟩] :=
  (totals_are_sums_and_permutation_invariant [⟨mealA, 1⟩, ⟨mealB, 2⟩]
    [⟨mealB, 2⟩, ⟨mealA, 1⟩]
    (List.Perm.swap (⟨mealB, 2⟩ : CartItem) (⟨mealA, 1⟩ : CartItem) [])).2.2.1

/-- C8: a cart entry whose key matches no fetched catalog item produces no
materialized line item, and dropping every binding of that key from the
cart changes neither the materialization nor any total (price or
nutritional); no error arises. -/
theorem unmatched_entry_dropped_contributes_nothing (cart : Cart)
    (catalog : List Meal) (k : String) (hk : ∀ m ∈ catalog, m.id ≠ k) :
    (∀ it ∈ loadCartItems (some cart) catalog, it.id ≠ k) ∧
    loadCartItems (some (eraseKey cart k)) catalog =
      loadCartItems (some cart) catalog ∧
    totalPrice (loadCartItems (some (eraseKey cart k)) catalog) =
      totalPrice (loadCartItems (some cart) catalog) ∧
    totalMacros (loadCartItems (some (eraseKey cart k)) catalog) =
      totalMacros (loadCartItems (some cart) catalog) := by
  have hmain : loadCartItems (some (eraseKey cart k)) catalog =
      loadCartItems (some cart) catalog := by
    rw [loadCartItems_some, loadCartItems_some]
    have hlook : ∀ m ∈ catalog,
        lookupKey (eraseKey cart k) m.id = lookupKey cart m.id := by
      intro m hm
      exact lookupKey_eraseKey_other cart k m.id (hk m hm)
    have hfilter : catalog.filter (fun m => (lookupKey (eraseKey cart k) m.id).isSome)
        = catalog.filter (fun m => (lookupKey cart m.id).isSome) := by
      apply List.filter_congr
      intro m hm
      rw [hlook m hm]
    rw [hfilter]
    apply List.map_congr_left
    intro m hm
    rw [hlook m (List.mem_filter.mp hm).1]
  refine ⟨?_, hmain, by rw [hmain], by rw [hmain]⟩
  intro it hit
  rw [loadCartItems_some] at hit
  rcases List.mem_map.mp hit with ⟨m, hm, rfl⟩
  exact hk m (List.mem_filter.mp hm).1

/-- Witness for C8 at a concrete input: cart `{A: 2, B: 5}` against a
catalog holding only item A — the `B` entry yields no line and removing it
changes nothing. -/
theorem unmatched_entry_dropped_contributes_nothing_witness :
    (∀ it ∈ loadCartItems (some [("A", 2), ("B", 5)]) [mealA], it.id ≠ "B") ∧
    loadCartItems (some (eraseKey [("A", 2), ("B", 5)] "B")) [mealA] =
      loadCartItems (some [("A", 2), ("B", 5)]) [mealA] ∧
    totalPrice (loadCartItems (some (eraseKey [("A", 2), ("B", 5)] "B")) [mealA]) =
      totalPrice (loadCartItems (some [("A", 2), ("B", 5)]) [mealA]) ∧
    totalMacros (loadCartItems (some (eraseKey [("A", 2), ("B", 5)] "B")) [mealA]) =
      totalMacros (loadCartItems (some [("A", 2), ("B", 5)]) [mealA]) :=
  unmatched_entry_dropped_contributes_nothing [("A", 2), ("B", 5)] [mealA] "B"
    (by decide)

/-- C9: for every cart store, item key and quantity at most 0, `set` (the
quantity update) produces exactly the store `remove` produces, and in the
resulting store the key holds no quantity at all — a zero quantity is never
persisted. -/
theorem set_nonpositive_equals_remove (s : CartStore) (mealId : String)
    (q : Int) (hq : q ≤ 0) :
    updateQuantity s mealId q = removeFromCart s mealId ∧
    lookupStore (updateQuantity s mealId q) mealId = none := by
  have h1 : q < 1 := lt_of_le_of_lt hq (by norm_num)
  have heq : updateQuantity s mealId q = removeFromCart s mealId := by
    simp [updateQuantity, h1]
  refine ⟨heq, ?_⟩
  rw [heq]
  cases s with
  | none => rfl
  | some c =>
    simp [removeFromCart, lookupStore, storedCart, lookupKey_eraseKey_self]

/-- Witness for C9 at a concrete input: setting quantity 0 on key A equals
removing A, and A is gone afterwards. -/
theorem set_nonpositive_equals_remove_witness :
    updateQuantity (some [("A", 2), ("B", 1)]) "A" 0 =
      removeFromCart (some [("A", 2), ("B", 1)]) "A" ∧
    lookupStore (updateQuantity (some [("A", 2), ("B", 1)]) "A" 0) "A" = none :=
  set_nonpositive_equals_remove (some [("A", 2), ("B", 1)]) "A" 0 (by decide)

/-- C10: each single cart mutation — add-to-cart, set-quantity, remove —
leaves the stored quantity of every other key unchanged. -/
theorem cart_mutations_preserve_other_keys (c : Cart) (s : CartStore)
    (mealId k : String) (q : Int) (hk : k ≠ mealId) :
    lookupKey (addToCart c mealId) k = lookupKey c k ∧
    lookupStore (updateQuantity s mealId q) k = lookupStore s k ∧
    lookupStore (removeFromCart s mealId) k = lookupStore s k := by
  have hrem : lookupStore (removeFromCart s mealId) k = lookupStore s k := by
    cases s with
    | none => rfl
    | some c' =>
      simp [removeFromCart, lookupStore, storedCart,
        lookupKey_eraseKey_other c' mealId k hk]
  have hadd : lookupKey (addToCart c mealId) k = lookupKey c k := by
    rw [addToCart]
    exact lookupKey_setKey_other c mealId k _ hk
  refine ⟨hadd, ?_, hrem⟩
  by_cases h1 : q < 1
  · simpa [updateQuantity, h1] using hrem
  · cases s with
    | none => simp [updateQuantity, h1]
    | some c' =>
      simp [updateQuantity, h1, lookupStore, storedCart,
        lookupKey_setKey_other c' mealId k q hk]

/-- Witness for C10 at a concrete input: mutating key A leaves key B's
quantity untouched. -/
theorem cart_mutations_preserve_other_keys_witness :
    lookupKey (addToCart [("A", 2), ("B", 1)] "A") "B" =
      lookupKey [("A", 2), ("B", 1)] "B" ∧
    lookupStore (updateQuantity (some [("A", 2), ("B", 1)]) "A" 5) "B" =
      lookupStore (some [("A", 2), ("B", 1)]) "B" ∧
    lookupStore (removeFromCart (some [("A", 2), ("B", 1)]) "A") "B" =
      lookupStore (some [("A", 2), ("B", 1)]) "B" :=
  cart_mutations_preserve_other_keys [("A", 2), ("B", 1)]
    (some [("A", 2), ("B", 1)]) "A" "B" 5 (by decide)

end DailyFragments
